import Mathlib

/-!
# pesign: `cms_common.c`

A shallow embedding of `src/cms_common.c` (context lifecycle and the
Authenticode structure builders) together with the properties checked
against it.

Conventions of the embedding

* A byte is a `Nat`; a buffer is a `List Nat`.  A C pointer to a buffer is
  `Option (List Nat)`: `none` is `NULL`, `some bs` is a pointer to the bytes
  `bs`.  Lengths are natural numbers.  Where the source stores a `size_t`
  into the `unsigned int` member `SECItem.len` (`generate_spc_link`, `Url`
  branch) the value is reduced modulo 2^32; elsewhere the C integer types
  that carry a length are taken to be wide enough for it.
* A C function that writes through an output pointer returns the new value of
  the pointed-to object next to its return code.
* The NSS/NSPR library calls used by the file (`SECITEM_AllocItem`,
  `SECITEM_CopyItem`, `SEC_ASN1EncodeItem`, `SECOID_FindOIDByTag`,
  `PORT_NewArena`, `PORT_FreeArena`, `NSS_InitReadWrite`, `NSS_Shutdown`,
  `CERT_DestroyCertificate`) are modelled by their documented behaviour.
* Diagnostics printed to `stderr` are not part of the model.
-/

namespace Pesign

/-! ## NSS data types -/

/-- The `SECItemType` enumeration is represented by its integer values. -/
abbrev SECItemType := Nat

/-- First enumerator of `SECItemType`; the value a zeroed item has. -/
def siBuffer : SECItemType := 0

/-- Enumerator of `SECItemType` used for UCS-2 strings. -/
def siBMPString : SECItemType := 15

/-- NSS `SECItem`: a type tag, a pointer to bytes and a length. -/
structure SECItem where
  type : SECItemType
  data : Option (List Nat)
  len : Nat
  deriving DecidableEq

/-- The all-zero `SECItem` (what `memset(.., 0, ..)` leaves). -/
def SECItem.zero : SECItem := { type := 0, data := none, len := 0 }

/-- The bytes an item designates: the first `len` bytes behind `data`. -/
def SECItem.bytes (i : SECItem) : List Nat := (i.data.getD []).take i.len

/-- NSS `SECAlgorithmID`. -/
structure SECAlgorithmID where
  algorithm : SECItem
  parameters : SECItem
  deriving DecidableEq

abbrev SECOidTag := Nat

/-- NSS `SECOidData`, reduced to the fields read here: the object identifier
and the tag it is registered under (`offset`). -/
structure SECOidData where
  oid : SECItem
  offset : SECOidTag
  deriving DecidableEq

/-- The DER universal tag number of NULL. -/
def SEC_ASN1_NULL : Nat := 0x05

/-- The DER universal tag number of OBJECT IDENTIFIER. -/
def SEC_ASN1_OBJECT_ID : Nat := 0x06

/-- The DER identifier octet of a SEQUENCE (constructed, universal 16). -/
def SEC_ASN1_SEQUENCE_OCTET : Nat := 0x30

def SEC_ASN1_CONTEXT_SPECIFIC : Nat := 0x80

abbrev PRErrorCode := Int

def SEC_ERROR_BASE : PRErrorCode := -0x2000

def SEC_ERROR_INVALID_ALGORITHM : PRErrorCode := SEC_ERROR_BASE + 6

def SEC_ERROR_NO_MEMORY : PRErrorCode := SEC_ERROR_BASE + 19

/-! ## Arena -/

/-- An arena pool.  `used` is the number of bytes handed out so far (the
high-water mark) and `limit` the number of bytes the pool can hand out before
an allocation fails. -/
structure PRArenaPool where
  used : Nat
  limit : Nat
  deriving DecidableEq

/-- NSS `PORT_ArenaAlloc`: hands out `size` bytes, or fails (`none`) and
leaves the pool as it was. -/
def PORT_ArenaAlloc (arena : PRArenaPool) (size : Nat) : Option PRArenaPool :=
  if arena.used + size ≤ arena.limit then
    some { arena with used := arena.used + size }
  else
    none

/-- NSS `SECITEM_AllocItem` for a non-null `item`: sets `len`; for a non-zero
length allocates the data from the arena, for length zero sets `data` to
`NULL`.  On allocation failure the item is left with `data = NULL`, `len = 0`
and the arena is released to where it was.  The fresh buffer is returned
zero-filled (its content is unspecified in C; every caller here overwrites
it). -/
def SECITEM_AllocItem (arena : PRArenaPool) (item : SECItem) (len : Nat) :
    PRArenaPool × SECItem :=
  if len = 0 then
    (arena, { item with data := none, len := 0 })
  else
    match PORT_ArenaAlloc arena len with
    | some arena1 => (arena1, { item with data := some (List.replicate len 0), len := len })
    | none => (arena, { item with data := none, len := 0 })

/-- NSS `SECITEM_CopyItem`: copies the type; if the source has data and a
non-zero length, allocates that many bytes and copies them, failing
(`none`) when the allocation fails; otherwise sets `data = NULL`, `len = 0`
and succeeds. -/
def SECITEM_CopyItem (arena : PRArenaPool) (src : SECItem) :
    Option (PRArenaPool × SECItem) :=
  match src.data with
  | some bs =>
    if src.len = 0 then
      some (arena, { type := src.type, data := none, len := 0 })
    else
      match PORT_ArenaAlloc arena src.len with
      | some arena1 =>
        some (arena1, { type := src.type, data := some (bs.take src.len), len := src.len })
      | none => none
  | none => some (arena, { type := src.type, data := none, len := 0 })

/-- NSS `SECOID_FindOIDByTag` over the table of registered identifiers. -/
def SECOID_FindOIDByTag (registered : List SECOidData) (tag : SECOidTag) :
    Option SECOidData :=
  registered.find? (fun d => d.offset == tag)

/-! ## DER -/

/-- Big-endian base-256 digits of `n`, most significant first, with `fuel`
bounding the number of digits produced. -/
def be_bytes_aux : Nat → Nat → List Nat → List Nat
  | 0, _, acc => acc
  | fuel + 1, n, acc =>
    if n = 0 then acc else be_bytes_aux fuel (n / 256) ((n % 256) :: acc)

/-- Minimal big-endian representation of `n` (empty for zero). -/
def be_bytes (n : Nat) : List Nat := be_bytes_aux n n []

/-- DER length octets: short form below 128, long form otherwise. -/
def der_length (n : Nat) : List Nat :=
  if n < 128 then [n] else (0x80 + (be_bytes n).length) :: be_bytes n

/-- A DER tag-length-value with identifier octet `tag`. -/
def der_tlv (tag : Nat) (content : List Nat) : List Nat :=
  tag :: (der_length content.length ++ content)

/-- NSS `SEC_ASN1EncodeItem` into a non-null `dest`, given the encoding the
template produces for the source: allocates `dest->data` of the encoding's
length from the arena and stores the encoding, leaving `dest->type` alone.
Fails (`none`) when the allocation fails. -/
def SEC_ASN1EncodeItem (arena : PRArenaPool) (dest : SECItem) (encoding : List Nat) :
    Option (PRArenaPool × SECItem) :=
  match PORT_ArenaAlloc arena encoding.length with
  | some arena1 => some (arena1, { dest with data := some encoding, len := encoding.length })
  | none => none

/-! ## Structures declared in `pesign.h` -/

/-- Modelled from the spec: the `SpcString` structure is declared in a header
that is not part of the sources at hand; the template reads its single member
`unicode`, "a UCS-2 (BMP) byte sequence". -/
structure SpcString where
  unicode : SECItem
  deriving DecidableEq

/-- Modelled from the spec: the `SpcLinkType` enumeration is declared in a
header that is not part of the sources at hand; the discriminant is
represented by its integer value. -/
abbrev SpcLinkType := Nat

/-- Modelled from the spec: enumerator for the `Url` arm (a non-zero value
distinct from the `File` one; the template uses it as choice selector). -/
def SpcLinkTypeUrl : SpcLinkType := 1

/-- Modelled from the spec: enumerator for the `File` arm. -/
def SpcLinkTypeFile : SpcLinkType := 2

/-- Modelled from the spec: the `SpcLink` structure is declared in a header
that is not part of the sources at hand: a "discriminant field + separate
struct fields", the members `type`, `url` and `file` the template and
`generate_spc_link` refer to. -/
structure SpcLink where
  type : SpcLinkType
  url : SECItem
  file : SECItem
  deriving DecidableEq

/-- The all-zero `SpcLink`. -/
def SpcLink.zero : SpcLink := { type := 0, url := SECItem.zero, file := SECItem.zero }

/-! ## Templates -/

/-- The encoding `AlgorithmIDTemplate` describes: a SEQUENCE holding the
OBJECT IDENTIFIER `algorithm` and then the raw bytes of `parameters`
(`SEC_ASN1_OPTIONAL | SEC_ASN1_ANY`: emitted as they are, nothing when the
item is empty). -/
def AlgorithmIDTemplate_encode (id : SECAlgorithmID) : List Nat :=
  der_tlv SEC_ASN1_SEQUENCE_OCTET
    (der_tlv SEC_ASN1_OBJECT_ID id.algorithm.bytes ++ id.parameters.bytes)

/-- The encoding `SpcStringTemplate` describes: the member `unicode` under the
context-specific tag 0, implicitly replacing the BMP-string tag of the
sub-template. -/
def SpcStringTemplate_encode (ss : SpcString) : List Nat :=
  der_tlv (SEC_ASN1_CONTEXT_SPECIFIC ||| 0) ss.unicode.bytes

/-! ## `generate_algorithm_id` -/

/-- What a call of `generate_algorithm_id` leaves behind: the return code, the
arena, the object behind `idp` (`none` when `idp` is `NULL`) and the error
code stored by `PORT_SetError` during the call, if any. -/
structure AlgorithmIdResult where
  rc : Int
  arena : PRArenaPool
  idp : Option SECAlgorithmID
  error : Option PRErrorCode
  deriving DecidableEq

/-- Embedding of `generate_algorithm_id(ctx, idp, tag)`.  The context is read
only for its arena, so the pool `ctx->arena` points to is passed.  The local
`id` starts with indeterminate content in C; only members assigned before the
final `memcpy` reach the output.  The `err:` path calls `SECITEM_FreeItem` on
the local copy, which gives nothing back to the arena. -/
def generate_algorithm_id (registered : List SECOidData) (arena : PRArenaPool)
    (idp : Option SECAlgorithmID) (tag : SECOidTag) : AlgorithmIdResult :=
  match idp with
  | none => { rc := -1, arena := arena, idp := none, error := none }
  | some old =>
    match SECOID_FindOIDByTag registered tag with
    | none =>
      { rc := -1, arena := arena, idp := some old,
        error := some SEC_ERROR_INVALID_ALGORITHM }
    | some oiddata =>
      match SECITEM_CopyItem arena oiddata.oid with
      | none =>
        { rc := -1, arena := arena, idp := some old, error := some SEC_ERROR_NO_MEMORY }
      | some (arena1, algorithm) =>
        let alloc := SECITEM_AllocItem arena1 SECItem.zero 2
        match alloc.2.data with
        | none =>
          { rc := -1, arena := alloc.1, idp := some old,
            error := some SEC_ERROR_NO_MEMORY }
        | some buf =>
          let data := (buf.set 0 SEC_ASN1_NULL).set 1 0
          let parameters : SECItem := { alloc.2 with data := some data, type := siBuffer }
          { rc := 0, arena := alloc.1,
            idp := some { algorithm := algorithm, parameters := parameters },
            error := none }

/-! ## `generate_spc_string` -/

/-- What a call of `generate_spc_string` leaves behind: the return code, the
arena, the item behind `ssp`, and the local `ss` as it stands at the return. -/
structure SpcStringResult where
  rc : Int
  arena : PRArenaPool
  ssp : SECItem
  ss : SpcString
  deriving DecidableEq

/-- Embedding of `generate_spc_string(arena, ssp, str, len)`.  `memcpy` copies
the first `len` bytes of `str` (C requires `str` to hold that many).  When
`SEC_ASN1EncodeItem` cannot allocate it has already stored `NULL` in
`ssp->data`. -/
def generate_spc_string (arena : PRArenaPool) (ssp : SECItem) (str : List Nat)
    (len : Nat) : SpcStringResult :=
  let alloc := SECITEM_AllocItem arena SECItem.zero len
  match alloc.2.data with
  | none => { rc := -1, arena := alloc.1, ssp := ssp, ss := { unicode := alloc.2 } }
  | some _ =>
    let ss : SpcString :=
      { unicode := { alloc.2 with data := some (str.take len), type := siBMPString } }
    match SEC_ASN1EncodeItem alloc.1 ssp (SpcStringTemplate_encode ss) with
    | none => { rc := -1, arena := alloc.1, ssp := { ssp with data := none }, ss := ss }
    | some (arena2, encoded) => { rc := 0, arena := arena2, ssp := encoded, ss := ss }

/-- The `SpcString` that `generate_spc_string` builds from `str` and `len`
once the buffer is allocated. -/
def built_spc_string (str : List Nat) (len : Nat) : SpcString :=
  { unicode := { type := siBMPString, data := some (str.take len), len := len } }

/-! ## `generate_spc_link` -/

/-- What a call of `generate_spc_link` leaves behind: the return code, the
arena and the object behind `slp`. -/
structure SpcLinkResult where
  rc : Int
  arena : PRArenaPool
  slp : SpcLink
  deriving DecidableEq

/-- Embedding of `generate_spc_link(arena, slp, link_type, link_data,
link_data_size)`.  `link_data` is a pointer (`none` is `NULL`) and
`link_data_size` a `size_t`.  The `Url` branch stores the pointer as it is and
stores the size into the `unsigned int` member `len`, which keeps it modulo
2^32.  The `File` branch hands pointer and size to `generate_spc_string`; a
`NULL` pointer is read there as a buffer without bytes (C leaves a `memcpy`
from it undefined). -/
def generate_spc_link (arena : PRArenaPool) (slp : SpcLink) (link_type : SpcLinkType)
    (link_data : Option (List Nat)) (link_data_size : Nat) : SpcLinkResult :=
  let sl : SpcLink := { SpcLink.zero with type := link_type }
  if sl.type = SpcLinkTypeFile then
    let r := generate_spc_string arena sl.file (link_data.getD []) link_data_size
    if r.rc < 0 then
      { rc := -1, arena := r.arena, slp := slp }
    else
      { rc := 0, arena := r.arena, slp := { sl with file := r.ssp } }
  else if sl.type = SpcLinkTypeUrl then
    let url : SECItem :=
      { sl.url with type := siBuffer, data := link_data, len := link_data_size % 2 ^ 32 }
    { rc := 0, arena := arena, slp := { sl with url := url } }
  else
    { rc := -1, arena := arena, slp := slp }

/-! ## Context lifecycle -/

/-- A `SECItem` whose buffer lives in process memory: `data` is the address
of its first byte.  Used for the digests a context points to, whose bytes are
looked at after the context is gone. -/
structure SECItemMem where
  type : SECItemType
  data : Nat
  len : Nat
  deriving DecidableEq

/-- Modelled from the spec: the `cms_context` structure is declared in a
header that is not part of the sources at hand; the members are the ones
`cms_context_init` and `cms_context_fini` touch: the arena, the certificate,
the private-key handle and the two digest buffers.  Pointers are `Option`s
(`none` is `NULL`): `cert` is a certificate handle, `privkey` the address of
the key memory, the digests the items pointed to. -/
structure cms_context where
  arena : Option PRArenaPool
  cert : Option Nat
  privkey : Option Nat
  pe_digest : Option SECItemMem
  ci_digest : Option SECItemMem
  deriving DecidableEq

/-- The all-zero context (what `memset(ctx, 0, sizeof (*ctx))` leaves). -/
def cms_context.zero : cms_context :=
  { arena := none, cert := none, privkey := none, pe_digest := none, ci_digest := none }

/-- The part of the process a context lifecycle acts on: byte-addressed
memory, the addresses given to `free`, the certificates given to
`CERT_DestroyCertificate`, the pools given to `PORT_FreeArena` (with the
`zero` flag), and whether the NSS library is started. -/
structure Process where
  memory : Nat → Nat
  freed : List Nat
  destroyed : List Nat
  released : List (PRArenaPool × Bool)
  nss_initialized : Bool

/-- How the library calls of `cms_context_init` turn out: whether
`NSS_InitReadWrite` and `register_oids` return `SECSuccess`, and the pool
`PORT_NewArena` returns (`none` for `NULL`). -/
structure InitOutcome where
  nss_init_ok : Bool
  register_oids_ok : Bool
  new_arena : Option PRArenaPool
  deriving DecidableEq

/-- NSS `NSS_InitReadWrite`: on success the library is started, on failure
nothing changes. -/
def NSS_InitReadWrite (ok : Bool) (p : Process) : Bool × Process :=
  if ok then (true, { p with nss_initialized := true }) else (false, p)

/-- NSS `NSS_Shutdown`: afterwards the library is not started. -/
def NSS_Shutdown (p : Process) : Process := { p with nss_initialized := false }

/-- NSS `CERT_DestroyCertificate`. -/
def CERT_DestroyCertificate (p : Process) (cert : Nat) : Process :=
  { p with destroyed := p.destroyed ++ [cert] }

/-- C `free`: the block is given back; its bytes are not touched. -/
def free (p : Process) (addr : Nat) : Process :=
  { p with freed := p.freed ++ [addr] }

/-- NSS `PORT_FreeArena`: nothing for a `NULL` pool, else the pool is given
back. -/
def PORT_FreeArena (p : Process) (arena : Option PRArenaPool) (zero : Bool) : Process :=
  match arena with
  | none => p
  | some a => { p with released := p.released ++ [(a, zero)] }

/-- Modelled from the spec: `free_poison` is a helper of this repository that
is not part of the sources at hand; the spec says the digest buffers are
"wiped (overwritten)".  It overwrites the `len` bytes at `addr`, here with
the bytes 0xa5 and 0x5a in turn. -/
def free_poison (p : Process) (addr : Nat) (len : Nat) : Process :=
  { p with memory := fun a =>
      if addr ≤ a ∧ a < addr + len then
        (if (a - addr) % 2 = 0 then 0xa5 else 0x5a)
      else p.memory a }

/-- What a call of `cms_context_init` leaves behind. -/
structure InitResult where
  rc : Int
  process : Process
  ctx : cms_context

/-- Embedding of `cms_context_init(ctx)`. -/
def cms_context_init (env : InitOutcome) (p : Process) (ctx : cms_context) : InitResult :=
  let st := NSS_InitReadWrite env.nss_init_ok p
  if st.1 ≠ true then
    { rc := -1, process := st.2, ctx := ctx }
  else if env.register_oids_ok ≠ true then
    { rc := -1, process := st.2, ctx := ctx }
  else
    let ctx1 := { cms_context.zero with arena := env.new_arena }
    match ctx1.arena with
    | none => { rc := -1, process := st.2, ctx := ctx1 }
    | some _ => { rc := 0, process := st.2, ctx := ctx1 }

/-- First block of `cms_context_fini`: the certificate. -/
def fini_cert (s : Process × cms_context) : Process × cms_context :=
  match s.2.cert with
  | some c => (CERT_DestroyCertificate s.1 c, { s.2 with cert := none })
  | none => s

/-- Second block of `cms_context_fini`: the private key. -/
def fini_privkey (s : Process × cms_context) : Process × cms_context :=
  match s.2.privkey with
  | some k => (free s.1 k, { s.2 with privkey := none })
  | none => s

/-- Third block of `cms_context_fini`: the `pe_digest` buffer. -/
def fini_pe_digest (s : Process × cms_context) : Process × cms_context :=
  match s.2.pe_digest with
  | some d => (free_poison s.1 d.data d.len, { s.2 with pe_digest := none })
  | none => s

/-- Fourth block of `cms_context_fini`: the `ci_digest` buffer. -/
def fini_ci_digest (s : Process × cms_context) : Process × cms_context :=
  match s.2.ci_digest with
  | some d => (free_poison s.1 d.data d.len, { s.2 with ci_digest := none })
  | none => s

/-- Embedding of `cms_context_fini(ctx)`: the four guarded blocks in order,
then `PORT_FreeArena(ctx->arena, PR_TRUE)`, the `memset` and `NSS_Shutdown`. -/
def cms_context_fini (p : Process) (ctx : cms_context) : Process × cms_context :=
  let s := fini_ci_digest (fini_pe_digest (fini_privkey (fini_cert (p, ctx))))
  let p1 := PORT_FreeArena s.1 s.2.arena true
  (NSS_Shutdown p1, cms_context.zero)

/-! ## Sample inputs -/

/-- The text "<<<Obsolete>>>" in UCS-2, the payload the source comment shows. -/
def obsolete : List Nat :=
  [0, 0x3c, 0, 0x3c, 0, 0x3c, 0, 0x4f, 0, 0x62, 0, 0x73, 0, 0x6f, 0, 0x6c, 0, 0x65,
   0, 0x74, 0, 0x65, 0, 0x3e, 0, 0x3e, 0, 0x3e]

/-- The 15 ASCII bytes of "http://example/". -/
def example_url : List Nat :=
  [0x68, 0x74, 0x74, 0x70, 0x3a, 0x2f, 0x2f, 0x65, 0x78, 0x61, 0x6d, 0x70, 0x6c, 0x65, 0x2f]

/-- A payload of 2^32 + 15 bytes, each the letter "a". -/
def long_url : List Nat := List.replicate 4294967311 0x61

/-- A pool with room for 1000 bytes. -/
def sample_arena : PRArenaPool := { used := 0, limit := 1000 }

/-- An output structure with leftovers in every member. -/
def stale_link : SpcLink :=
  { type := 9, url := { type := 3, data := some [1, 2], len := 2 },
    file := { type := 4, data := some [7], len := 1 } }

/-- The tag NSS gives SHA-256. -/
def SEC_OID_SHA256 : SECOidTag := 191

/-- The entry for SHA-256, identifier 2.16.840.1.101.3.4.2.1. -/
def sha256_oid : SECOidData :=
  { oid := { type := siBuffer,
             data := some [0x60, 0x86, 0x48, 0x01, 0x65, 0x03, 0x04, 0x02, 0x01], len := 9 },
    offset := SEC_OID_SHA256 }

/-- A table with the SHA-256 entry only. -/
def sample_oids : List SECOidData := [sha256_oid]

/-- An output structure with leftovers in both members. -/
def stale_algorithm_id : SECAlgorithmID :=
  { algorithm := { type := 3, data := some [1, 2, 3], len := 3 },
    parameters := { type := 4, data := some [9], len := 1 } }

/-- A process with the library not started, nothing freed, destroyed or
released, a four-byte key at address 100 and digests at addresses 200 (four
bytes) and 300 (two bytes). -/
def sample_process : Process :=
  { memory := fun a =>
      if a = 100 then 0xde else if a = 101 then 0xad else if a = 102 then 0xbe
      else if a = 103 then 0xef
      else if a = 200 then 0x11 else if a = 201 then 0x22 else if a = 202 then 0x33
      else if a = 203 then 0x44
      else if a = 300 then 0x55 else if a = 301 then 0x66 else 0,
    freed := [], destroyed := [], released := [], nss_initialized := false }

/-- A context holding a certificate, the key at 100 and the two digests. -/
def sample_context : cms_context :=
  { arena := some sample_arena, cert := some 7, privkey := some 100,
    pe_digest := some { type := siBuffer, data := 200, len := 4 },
    ci_digest := some { type := siBuffer, data := 300, len := 2 } }

/-- The library does not start. -/
def library_start_fails : InitOutcome :=
  { nss_init_ok := false, register_oids_ok := true, new_arena := some sample_arena }

/-- The library starts, the identifiers do not register. -/
def registration_fails : InitOutcome :=
  { nss_init_ok := true, register_oids_ok := false, new_arena := some sample_arena }

/-- The library starts, the identifiers register, no arena can be had. -/
def arena_fails : InitOutcome :=
  { nss_init_ok := true, register_oids_ok := true, new_arena := none }

/-! ## Facts about the helpers -/

theorem generate_spc_string_rc (arena : PRArenaPool) (ssp : SECItem) (str : List Nat)
    (len : Nat) :
    (generate_spc_string arena ssp str len).rc = 0 ∨
      (generate_spc_string arena ssp str len).rc = -1 := by
  simp only [generate_spc_string]
  split
  · right; rfl
  · split
    · right; rfl
    · left; rfl

/-- The return code, the arena and the data and length written by
`generate_spc_string` do not depend on what `ssp` held before. -/
theorem generate_spc_string_indep (arena : PRArenaPool) (ssp ssq : SECItem)
    (str : List Nat) (len : Nat) :
    (generate_spc_string arena ssp str len).rc = (generate_spc_string arena ssq str len).rc ∧
    (generate_spc_string arena ssp str len).arena =
      (generate_spc_string arena ssq str len).arena ∧
    ((generate_spc_string arena ssp str len).rc = 0 →
      (generate_spc_string arena ssp str len).ssp =
        { (generate_spc_string arena ssq str len).ssp with type := ssp.type }) := by
  simp only [generate_spc_string, SEC_ASN1EncodeItem]
  cases (SECITEM_AllocItem arena SECItem.zero len).2.data with
  | none => simp
  | some buf =>
    simp only []
    cases PORT_ArenaAlloc (SECITEM_AllocItem arena SECItem.zero len).1
        (SpcStringTemplate_encode { unicode :=
          { type := siBMPString, data := some (List.take len str),
            len := (SECITEM_AllocItem arena SECItem.zero len).2.len } }).length with
    | none => simp
    | some a => simp

/-- When `generate_spc_string` succeeds and what it then leaves behind. -/
theorem generate_spc_string_spec (arena : PRArenaPool) (ssp : SECItem) (str : List Nat)
    (len : Nat) :
    ((generate_spc_string arena ssp str len).rc = 0 ↔
      0 < len ∧
      arena.used + len + (SpcStringTemplate_encode (built_spc_string str len)).length ≤
        arena.limit) ∧
    ((generate_spc_string arena ssp str len).rc = 0 →
      (generate_spc_string arena ssp str len).ss = built_spc_string str len ∧
      (generate_spc_string arena ssp str len).ssp =
        { type := ssp.type,
          data := some (SpcStringTemplate_encode (built_spc_string str len)),
          len := (SpcStringTemplate_encode (built_spc_string str len)).length } ∧
      (generate_spc_string arena ssp str len).arena =
        { used := arena.used + len +
            (SpcStringTemplate_encode (built_spc_string str len)).length,
          limit := arena.limit }) := by
  simp only [generate_spc_string, SEC_ASN1EncodeItem, SECITEM_AllocItem, PORT_ArenaAlloc,
    built_spc_string]
  by_cases h0 : len = 0
  · simp [h0]
  · by_cases h1 : arena.used + len ≤ arena.limit
    · simp only [h0, h1, if_true, if_false]
      by_cases h2 : arena.used + len + (SpcStringTemplate_encode
          { unicode := { type := siBMPString, data := some (List.take len str),
                         len := len } }).length ≤ arena.limit
      · simp [h2, Nat.pos_of_ne_zero h0]
      · simp [h2]
    · have h3 : ¬ arena.used + len + (SpcStringTemplate_encode
          { unicode := { type := siBMPString, data := some (List.take len str),
                         len := len } }).length ≤ arena.limit := by omega
      simp [h0, h1, h3]

theorem SpcStringTemplate_encode_length_pos (ss : SpcString) :
    0 < (SpcStringTemplate_encode ss).length := by
  simp [SpcStringTemplate_encode, der_tlv]

/-- With the `File` discriminant the return code, the `file` member, the
arena, the discriminant and the `url` member of `generate_spc_link` in terms
of the call of `generate_spc_string` it makes. -/
theorem generate_spc_link_file_rc (arena : PRArenaPool) (slp : SpcLink)
    (link_data : Option (List Nat)) (n : Nat) :
    (generate_spc_link arena slp SpcLinkTypeFile link_data n).rc =
      (generate_spc_string arena SECItem.zero (link_data.getD []) n).rc ∧
    ((generate_spc_string arena SECItem.zero (link_data.getD []) n).rc = 0 →
      (generate_spc_link arena slp SpcLinkTypeFile link_data n).slp.file =
        (generate_spc_string arena SECItem.zero (link_data.getD []) n).ssp) ∧
    (generate_spc_link arena slp SpcLinkTypeFile link_data n).arena =
      (generate_spc_string arena SECItem.zero (link_data.getD []) n).arena ∧
    ((generate_spc_string arena SECItem.zero (link_data.getD []) n).rc = 0 →
      (generate_spc_link arena slp SpcLinkTypeFile link_data n).slp.type =
        SpcLinkTypeFile) ∧
    ((generate_spc_string arena SECItem.zero (link_data.getD []) n).rc = 0 →
      (generate_spc_link arena slp SpcLinkTypeFile link_data n).slp.url = SECItem.zero) := by
  simp only [generate_spc_link, SpcLink.zero, if_true]
  rcases generate_spc_string_rc arena SECItem.zero (link_data.getD []) n with h | h
  · simp [h]
  · simp [h]

theorem spc_link_rc_of_invalid (arena : PRArenaPool) (slp : SpcLink)
    (link_type : SpcLinkType) (link_data : Option (List Nat)) (link_data_size : Nat)
    (hfile : link_type ≠ SpcLinkTypeFile) (hurl : link_type ≠ SpcLinkTypeUrl) :
    (generate_spc_link arena slp link_type link_data link_data_size).rc = -1 := by
  simp [generate_spc_link, SpcLink.zero, hfile, hurl]

/-- With the `Url` discriminant `generate_spc_link` returns 0, leaves the
arena alone and writes the discriminant, the pointer, the size modulo 2^32
and an all-zero `file` member. -/
theorem generate_spc_link_url_eq (arena : PRArenaPool) (slp : SpcLink)
    (link_data : Option (List Nat)) (link_data_size : Nat) :
    generate_spc_link arena slp SpcLinkTypeUrl link_data link_data_size =
      { rc := 0, arena := arena,
        slp := { type := SpcLinkTypeUrl,
                 url := { type := siBuffer, data := link_data,
                          len := link_data_size % 2 ^ 32 },
                 file := SECItem.zero } } := by
  simp [generate_spc_link, SpcLink.zero, SECItem.zero, SpcLinkTypeUrl, SpcLinkTypeFile]

theorem long_url_length : long_url.length = 4294967311 := by
  unfold long_url
  exact List.length_replicate _ _

/-! ## `generate_spc_link` -/

/-- C1: with discriminant `SpcLinkTypeFile`, `generate_spc_link` succeeds
exactly when `generate_spc_string` on the same arena, payload and length
succeeds (whatever the item that call writes to held before), and on success
the `file` member it writes is the item `generate_spc_string` produces for
that payload and length: the same type, data and length as the call the code
makes, and the same data and length as a call with any other output item. -/
theorem generate_spc_link_file_eq_spc_string (arena : PRArenaPool) (slp : SpcLink)
    (ssp : SECItem) (link_data : Option (List Nat)) (n : Nat) :
    ((generate_spc_link arena slp SpcLinkTypeFile link_data n).rc = 0 ↔
      (generate_spc_string arena ssp (link_data.getD []) n).rc = 0) ∧
    ((generate_spc_link arena slp SpcLinkTypeFile link_data n).rc = 0 →
      (generate_spc_link arena slp SpcLinkTypeFile link_data n).slp.file =
        (generate_spc_string arena SECItem.zero (link_data.getD []) n).ssp ∧
      (generate_spc_link arena slp SpcLinkTypeFile link_data n).slp.file.data =
        (generate_spc_string arena ssp (link_data.getD []) n).ssp.data ∧
      (generate_spc_link arena slp SpcLinkTypeFile link_data n).slp.file.len =
        (generate_spc_string arena ssp (link_data.getD []) n).ssp.len ∧
      (generate_spc_link arena slp SpcLinkTypeFile link_data n).arena =
        (generate_spc_string arena ssp (link_data.getD []) n).arena) := by
  have hi := generate_spc_string_indep arena ssp SECItem.zero (link_data.getD []) n
  obtain ⟨k1, k2, k3, _, _⟩ := generate_spc_link_file_rc arena slp link_data n
  refine ⟨by rw [k1, hi.1], ?_⟩
  intro h
  have h0 : (generate_spc_string arena SECItem.zero (link_data.getD []) n).rc = 0 := by
    rw [← k1]; exact h
  have hs : (generate_spc_string arena ssp (link_data.getD []) n).rc = 0 := by
    rw [hi.1]; exact h0
  have e := hi.2.2 hs
  refine ⟨k2 h0, ?_, ?_, ?_⟩
  · rw [k2 h0, e]
  · rw [k2 h0, e]
  · rw [k3, hi.2.1]

/-- Witness for C1: the payload of the source comment, 28 bytes, into a pool
with room; both calls succeed and the `file` member is the encoded string. -/
theorem generate_spc_link_file_eq_spc_string_witness :
    (generate_spc_link sample_arena stale_link SpcLinkTypeFile (some obsolete) 28).rc = 0 ∧
    (generate_spc_link sample_arena stale_link SpcLinkTypeFile (some obsolete) 28).slp.file =
      (generate_spc_string sample_arena SECItem.zero obsolete 28).ssp :=
  ⟨by decide,
   ((generate_spc_link_file_eq_spc_string sample_arena stale_link SECItem.zero
      (some obsolete) 28).2 (by decide)).1⟩

/-- C2, as stated, fails: for a payload of 2^32 + 15 bytes the call succeeds
and the `url` member records the length 15, so it designates the first 15
bytes only, not the payload. -/
theorem generate_spc_link_url_length_wraps :
    long_url.length = 4294967311 ∧
    (generate_spc_link sample_arena SpcLink.zero SpcLinkTypeUrl (some long_url)
      4294967311).rc = 0 ∧
    (generate_spc_link sample_arena SpcLink.zero SpcLinkTypeUrl (some long_url)
      4294967311).slp.url.len = 15 ∧
    (generate_spc_link sample_arena SpcLink.zero SpcLinkTypeUrl (some long_url)
      4294967311).slp.url.bytes.length = 15 ∧
    (generate_spc_link sample_arena SpcLink.zero SpcLinkTypeUrl (some long_url)
      4294967311).slp.url.bytes ≠ long_url := by
  have hl := long_url_length
  have hb : (generate_spc_link sample_arena SpcLink.zero SpcLinkTypeUrl (some long_url)
      4294967311).slp.url.bytes.length = 15 := by
    rw [generate_spc_link_url_eq]
    simp only [SECItem.bytes, Option.getD_some, List.length_take, hl]
    norm_num
  refine ⟨hl, ?_, ?_, hb, ?_⟩
  · rw [generate_spc_link_url_eq]
  · rw [generate_spc_link_url_eq]
    show 4294967311 % 2 ^ 32 = 15
    norm_num
  · intro h
    rw [h, hl] at hb
    exact absurd hb (by norm_num)

/-- C2, amended: with discriminant `SpcLinkTypeUrl`, `generate_spc_link`
succeeds for every byte sequence, every arena and every previous content of
the output, allocates nothing, and the `url` member it writes points to the
bytes given, with their length modulo 2^32; for a sequence of fewer than 2^32
bytes the `url` member therefore carries exactly the bytes given, with their
length; so it does for the 15 bytes of "http://example/". -/
theorem generate_spc_link_url_verbatim (arena : PRArenaPool) (slp : SpcLink)
    (b : List Nat) :
    ((generate_spc_link arena slp SpcLinkTypeUrl (some b) b.length).rc = 0 ∧
      (generate_spc_link arena slp SpcLinkTypeUrl (some b) b.length).arena = arena ∧
      (generate_spc_link arena slp SpcLinkTypeUrl (some b) b.length).slp.url.type =
        siBuffer ∧
      (generate_spc_link arena slp SpcLinkTypeUrl (some b) b.length).slp.url.data =
        some b ∧
      (generate_spc_link arena slp SpcLinkTypeUrl (some b) b.length).slp.url.len =
        b.length % 2 ^ 32) ∧
    (b.length < 2 ^ 32 →
      (generate_spc_link arena slp SpcLinkTypeUrl (some b) b.length).slp.url =
        { type := siBuffer, data := some b, len := b.length } ∧
      (generate_spc_link arena slp SpcLinkTypeUrl (some b) b.length).slp.url.bytes = b) ∧
    (generate_spc_link arena slp SpcLinkTypeUrl (some example_url) 15).slp.url =
      { type := siBuffer, data := some example_url, len := 15 } := by
  rw [generate_spc_link_url_eq, generate_spc_link_url_eq]
  refine ⟨⟨rfl, rfl, rfl, rfl, rfl⟩, ?_, ?_⟩
  · intro hlen
    have hm : b.length % 2 ^ 32 = b.length := Nat.mod_eq_of_lt hlen
    refine ⟨?_, ?_⟩
    · simp only [hm]
    · simp only [SECItem.bytes, hm, Option.getD_some, List.take_length]
  · simp

/-- Witness for C2 amended: the 15 bytes of "http://example/" over an output
holding leftovers. -/
theorem generate_spc_link_url_verbatim_witness :
    example_url.length < 2 ^ 32 ∧
    (generate_spc_link sample_arena stale_link SpcLinkTypeUrl (some example_url)
      example_url.length).slp.url =
      { type := siBuffer, data := some example_url, len := example_url.length } ∧
    (generate_spc_link sample_arena stale_link SpcLinkTypeUrl (some example_url)
      example_url.length).slp.url.bytes = example_url :=
  ⟨by decide,
   (generate_spc_link_url_verbatim sample_arena stale_link example_url).2.1 (by decide)⟩

/-- C3: for a discriminant that is neither `SpcLinkTypeFile` nor
`SpcLinkTypeUrl`, `generate_spc_link` fails, leaves the arena as it was and
leaves the output structure as it was, whatever the payload. -/
theorem generate_spc_link_invalid (arena : PRArenaPool) (slp : SpcLink)
    (link_type : SpcLinkType) (link_data : Option (List Nat)) (link_data_size : Nat)
    (hfile : link_type ≠ SpcLinkTypeFile) (hurl : link_type ≠ SpcLinkTypeUrl) :
    (generate_spc_link arena slp link_type link_data link_data_size).rc = -1 ∧
    (generate_spc_link arena slp link_type link_data link_data_size).arena = arena ∧
    (generate_spc_link arena slp link_type link_data link_data_size).slp = slp := by
  simp [generate_spc_link, SpcLink.zero, hfile, hurl]

/-- Witness for C3: discriminant 0 with a payload and an output holding
leftovers. -/
theorem generate_spc_link_invalid_witness :
    (0 : SpcLinkType) ≠ SpcLinkTypeFile ∧ (0 : SpcLinkType) ≠ SpcLinkTypeUrl ∧
    (generate_spc_link sample_arena stale_link 0 (some obsolete) 28).rc = -1 ∧
    (generate_spc_link sample_arena stale_link 0 (some obsolete) 28).arena = sample_arena ∧
    (generate_spc_link sample_arena stale_link 0 (some obsolete) 28).slp = stale_link :=
  ⟨by decide, by decide,
   generate_spc_link_invalid sample_arena stale_link 0 (some obsolete) 28 (by decide)
     (by decide)⟩

/-- C10, as stated, fails: with discriminant `SpcLinkTypeUrl`, a `NULL`
payload and size 0 the call succeeds and both the `url` and the `file`
member of the structure it writes are all-zero: no payload is populated. -/
theorem generate_spc_link_url_null_no_arm :
    (generate_spc_link sample_arena stale_link SpcLinkTypeUrl none 0).rc = 0 ∧
    (generate_spc_link sample_arena stale_link SpcLinkTypeUrl none 0).slp.type =
      SpcLinkTypeUrl ∧
    (generate_spc_link sample_arena stale_link SpcLinkTypeUrl none 0).slp.url =
      SECItem.zero ∧
    (generate_spc_link sample_arena stale_link SpcLinkTypeUrl none 0).slp.url.data = none ∧
    (generate_spc_link sample_arena stale_link SpcLinkTypeUrl none 0).slp.url.len = 0 ∧
    (generate_spc_link sample_arena stale_link SpcLinkTypeUrl none 0).slp.file =
      SECItem.zero := by
  decide

/-- C10, amended: when `generate_spc_link` succeeds, the structure it writes
has the requested discriminant, which is one of the two link types, and the
member that does not match the discriminant is all-zero, whatever the output
structure held before.  For `SpcLinkTypeUrl` the `file` member is all-zero
and the `url` member holds the pointer given and the size given modulo 2^32,
so it is populated unless the pointer is `NULL` and that length is 0, and
has non-null data whenever the pointer given is not `NULL`.  For
`SpcLinkTypeFile` the `url` member is all-zero and the `file` member holds a
non-null, non-empty buffer. -/
theorem generate_spc_link_one_arm (arena : PRArenaPool) (slp : SpcLink)
    (link_type : SpcLinkType) (link_data : Option (List Nat)) (link_data_size : Nat)
    (hok : (generate_spc_link arena slp link_type link_data link_data_size).rc = 0) :
    (generate_spc_link arena slp link_type link_data link_data_size).slp.type = link_type ∧
    (link_type = SpcLinkTypeUrl ∨ link_type = SpcLinkTypeFile) ∧
    (link_type = SpcLinkTypeUrl →
      (generate_spc_link arena slp link_type link_data link_data_size).slp.file =
        SECItem.zero ∧
      (generate_spc_link arena slp link_type link_data link_data_size).slp.url =
        { type := siBuffer, data := link_data, len := link_data_size % 2 ^ 32 } ∧
      ((generate_spc_link arena slp link_type link_data link_data_size).slp.url =
          SECItem.zero ↔ link_data = none ∧ link_data_size % 2 ^ 32 = 0) ∧
      (link_data ≠ none →
        (generate_spc_link arena slp link_type link_data link_data_size).slp.url.data ≠
          none)) ∧
    (link_type = SpcLinkTypeFile →
      (generate_spc_link arena slp link_type link_data link_data_size).slp.url =
        SECItem.zero ∧
      (generate_spc_link arena slp link_type link_data link_data_size).slp.file.data ≠
        none ∧
      0 < (generate_spc_link arena slp link_type link_data link_data_size).slp.file.len) := by
  by_cases hf : link_type = SpcLinkTypeFile
  · subst hf
    have h1 := generate_spc_link_file_rc arena slp link_data link_data_size
    have hs : (generate_spc_string arena SECItem.zero (link_data.getD [])
        link_data_size).rc = 0 := by
      rw [← h1.1]; exact hok
    have hspec :=
      (generate_spc_string_spec arena SECItem.zero (link_data.getD []) link_data_size).2 hs
    have hfile := h1.2.1 hs
    refine ⟨h1.2.2.2.1 hs, Or.inr rfl, ?_, ?_⟩
    · intro h; exact absurd h (by decide)
    · intro _
      refine ⟨h1.2.2.2.2 hs, ?_, ?_⟩
      · rw [hfile, hspec.2.1]; simp
      · rw [hfile, hspec.2.1]; exact SpcStringTemplate_encode_length_pos _
  · by_cases hu : link_type = SpcLinkTypeUrl
    · subst hu
      rw [generate_spc_link_url_eq]
      refine ⟨rfl, Or.inl rfl, ?_, ?_⟩
      · intro _
        refine ⟨rfl, rfl, ?_, ?_⟩
        · simp [SECItem.zero, siBuffer]
        · intro h; exact h
      · intro h; exact absurd h hf
    · have := spc_link_rc_of_invalid arena slp link_type link_data link_data_size hf hu
      rw [this] at hok
      exact absurd hok (by decide)

/-- Witness for C10 amended: a `File` link written over an output holding
leftovers. -/
theorem generate_spc_link_one_arm_witness :
    (generate_spc_link sample_arena stale_link SpcLinkTypeFile (some obsolete) 28).rc = 0 ∧
    (generate_spc_link sample_arena stale_link SpcLinkTypeFile (some obsolete) 28).slp.type =
      SpcLinkTypeFile ∧
    (generate_spc_link sample_arena stale_link SpcLinkTypeFile (some obsolete) 28).slp.url =
      SECItem.zero :=
  ⟨by decide,
   (generate_spc_link_one_arm sample_arena stale_link SpcLinkTypeFile (some obsolete) 28
      (by decide)).1,
   ((generate_spc_link_one_arm sample_arena stale_link SpcLinkTypeFile (some obsolete) 28
      (by decide)).2.2.2 rfl).1⟩

/-! ## `generate_spc_string` -/

/-- C4, as stated, fails: for the one-byte ASCII text "A" the call succeeds
and the string it builds has an inner payload of one byte, 0x41, not of two;
the item written is the tag 0x80, the length 1 and that byte. -/
theorem generate_spc_string_not_two_bytes_per_char :
    (generate_spc_string sample_arena SECItem.zero [0x41] 1).rc = 0 ∧
    (generate_spc_string sample_arena SECItem.zero [0x41] 1).ss.unicode.bytes = [0x41] ∧
    (generate_spc_string sample_arena SECItem.zero [0x41] 1).ss.unicode.len = 1 ∧
    (generate_spc_string sample_arena SECItem.zero [0x41] 1).ss.unicode.bytes.length ≠
      2 * [0x41].length ∧
    (generate_spc_string sample_arena SECItem.zero [0x41] 1).ssp.data =
      some [0x80, 1, 0x41] := by
  decide

/-- C4, amended: for every text `S` of `N` bytes, `generate_spc_string`
succeeds exactly when `N` is not zero and the arena has room for the `N`
bytes and for the encoding; when it succeeds, the string it builds has as
inner payload exactly the `N` bytes of `S`, unchanged (one byte per input
byte, typed `siBMPString`), and the item it writes is that payload under the
context-specific tag 0: the octet 0x80, the DER length of `N`, the bytes of
`S`. -/
theorem generate_spc_string_verbatim (arena : PRArenaPool) (ssp : SECItem) (S : List Nat) :
    ((generate_spc_string arena ssp S S.length).rc = 0 ↔
      0 < S.length ∧
      arena.used + S.length + (1 + (der_length S.length).length + S.length) ≤
        arena.limit) ∧
    ((generate_spc_string arena ssp S S.length).rc = 0 →
      (generate_spc_string arena ssp S S.length).ss.unicode.bytes = S ∧
      (generate_spc_string arena ssp S S.length).ss.unicode.len = S.length ∧
      (generate_spc_string arena ssp S S.length).ss.unicode.type = siBMPString ∧
      (generate_spc_string arena ssp S S.length).ssp.data =
        some (0x80 :: (der_length S.length ++ S)) ∧
      (generate_spc_string arena ssp S S.length).ssp.len =
        1 + (der_length S.length).length + S.length) := by
  have henc : SpcStringTemplate_encode (built_spc_string S S.length) =
      0x80 :: (der_length S.length ++ S) := by
    simp [SpcStringTemplate_encode, built_spc_string, SECItem.bytes, der_tlv,
      SEC_ASN1_CONTEXT_SPECIFIC]
  have hlen : (SpcStringTemplate_encode (built_spc_string S S.length)).length =
      1 + (der_length S.length).length + S.length := by
    rw [henc]; simp; omega
  obtain ⟨h1, h2⟩ := generate_spc_string_spec arena ssp S S.length
  rw [hlen] at h1
  refine ⟨h1, ?_⟩
  intro hok
  obtain ⟨e1, e2, _⟩ := h2 hok
  rw [e1, e2, henc]
  simp [built_spc_string, SECItem.bytes]
  omega

/-- Witness for C4 amended: the 28 bytes of the source comment; the item
written is `[0] (28) 00 3c 00 3c ...`. -/
theorem generate_spc_string_verbatim_witness :
    (generate_spc_string sample_arena SECItem.zero obsolete obsolete.length).rc = 0 ∧
    (generate_spc_string sample_arena SECItem.zero obsolete obsolete.length).ss.unicode.bytes =
      obsolete ∧
    (generate_spc_string sample_arena SECItem.zero obsolete obsolete.length).ssp.data =
      some (0x80 :: (der_length obsolete.length ++ obsolete)) :=
  ⟨by decide,
   ((generate_spc_string_verbatim sample_arena SECItem.zero obsolete).2 (by decide)).1,
   ((generate_spc_string_verbatim sample_arena SECItem.zero obsolete).2
      (by decide)).2.2.2.1⟩

/-! ## `generate_algorithm_id` -/

/-- `SECITEM_CopyItem` hands on the type and the designated bytes. -/
theorem SECITEM_CopyItem_bytes (arena arena1 : PRArenaPool) (src dst : SECItem)
    (h : SECITEM_CopyItem arena src = some (arena1, dst)) :
    dst.type = src.type ∧ dst.bytes = src.bytes := by
  unfold SECITEM_CopyItem at h
  cases hd : src.data with
  | none =>
    rw [hd] at h
    simp only [Option.some.injEq, Prod.mk.injEq] at h
    obtain ⟨_, rfl⟩ := h
    simp [SECItem.bytes, hd]
  | some bs =>
    rw [hd] at h
    by_cases h0 : src.len = 0
    · simp only [h0, if_true, Option.some.injEq, Prod.mk.injEq] at h
      obtain ⟨_, rfl⟩ := h
      simp [SECItem.bytes, hd, h0]
    · simp only [h0, if_false] at h
      cases ha : PORT_ArenaAlloc arena src.len with
      | none => rw [ha] at h; exact absurd h (by simp)
      | some a =>
        rw [ha] at h
        simp only [Option.some.injEq, Prod.mk.injEq] at h
        obtain ⟨_, rfl⟩ := h
        simp [SECItem.bytes, hd, List.take_take]

/-- Every return of `generate_algorithm_id` falls under one of these cases. -/
theorem generate_algorithm_id_cases (registered : List SECOidData) (arena : PRArenaPool)
    (idp : Option SECAlgorithmID) (tag : SECOidTag) :
    ((generate_algorithm_id registered arena idp tag).rc = -1 ∧
      (generate_algorithm_id registered arena idp tag).idp = idp) ∨
    ((generate_algorithm_id registered arena idp tag).rc = 0 ∧
      ∃ old oiddata arena1 algorithm,
        idp = some old ∧
        SECOID_FindOIDByTag registered tag = some oiddata ∧
        SECITEM_CopyItem arena oiddata.oid = some (arena1, algorithm) ∧
        (generate_algorithm_id registered arena idp tag).idp =
          some { algorithm := algorithm,
                 parameters := { type := siBuffer, data := some [SEC_ASN1_NULL, 0],
                                 len := 2 } }) := by
  cases idp with
  | none => left; simp [generate_algorithm_id]
  | some old =>
    cases hf : SECOID_FindOIDByTag registered tag with
    | none => left; simp [generate_algorithm_id, hf]
    | some oiddata =>
      cases hc : SECITEM_CopyItem arena oiddata.oid with
      | none => left; simp [generate_algorithm_id, hf, hc]
      | some pr =>
        obtain ⟨arena1, algorithm⟩ := pr
        by_cases hroom : arena1.used + 2 ≤ arena1.limit
        · right
          simp [generate_algorithm_id, hf, hc, SECITEM_AllocItem, PORT_ArenaAlloc, hroom,
            SECItem.zero]
        · left
          simp [generate_algorithm_id, hf, hc, SECITEM_AllocItem, PORT_ArenaAlloc, hroom]

/-- C5: for a tag with a registered identifier, when `generate_algorithm_id`
succeeds the structure it writes has as `algorithm` the bytes (and the type)
of the registered identifier and as `parameters` exactly the two bytes
0x05 0x00, so that under `AlgorithmIDTemplate` it encodes as a SEQUENCE of
the OBJECT IDENTIFIER followed by a DER NULL of length zero. -/
theorem generate_algorithm_id_oid_then_null (registered : List SECOidData)
    (arena : PRArenaPool) (idp : Option SECAlgorithmID) (tag : SECOidTag)
    (oiddata : SECOidData)
    (hreg : SECOID_FindOIDByTag registered tag = some oiddata)
    (hok : (generate_algorithm_id registered arena idp tag).rc = 0) :
    ∃ id : SECAlgorithmID,
      (generate_algorithm_id registered arena idp tag).idp = some id ∧
      id.algorithm.bytes = oiddata.oid.bytes ∧
      id.algorithm.type = oiddata.oid.type ∧
      id.parameters = { type := siBuffer, data := some [0x05, 0x00], len := 2 } ∧
      id.parameters.bytes = [0x05, 0x00] ∧
      AlgorithmIDTemplate_encode id =
        der_tlv 0x30 (der_tlv 0x06 oiddata.oid.bytes ++ [0x05, 0x00]) := by
  rcases generate_algorithm_id_cases registered arena idp tag with h | h
  · rw [h.1] at hok
    exact absurd hok (by decide)
  · obtain ⟨_, old, od, arena1, algorithm, _, hf, hc, hid⟩ := h
    rw [hreg] at hf
    cases hf
    obtain ⟨ht, hb⟩ := SECITEM_CopyItem_bytes arena arena1 oiddata.oid algorithm hc
    refine ⟨_, hid, hb, ht, rfl, rfl, ?_⟩
    simp only [AlgorithmIDTemplate_encode, hb]
    rfl

/-- Witness for C5: SHA-256 into a pool with room, over an output holding
leftovers; the encoding is `30 0d 06 09 60 86 48 01 65 03 04 02 01 05 00`. -/
theorem generate_algorithm_id_oid_then_null_witness :
    SECOID_FindOIDByTag sample_oids SEC_OID_SHA256 = some sha256_oid ∧
    (generate_algorithm_id sample_oids sample_arena (some stale_algorithm_id)
      SEC_OID_SHA256).rc = 0 ∧
    ∃ id : SECAlgorithmID,
      (generate_algorithm_id sample_oids sample_arena (some stale_algorithm_id)
        SEC_OID_SHA256).idp = some id ∧
      id.algorithm.bytes = [0x60, 0x86, 0x48, 0x01, 0x65, 0x03, 0x04, 0x02, 0x01] ∧
      id.parameters.bytes = [0x05, 0x00] ∧
      AlgorithmIDTemplate_encode id =
        [0x30, 0x0d, 0x06, 0x09, 0x60, 0x86, 0x48, 0x01, 0x65, 0x03, 0x04, 0x02, 0x01,
         0x05, 0x00] := by
  refine ⟨by decide, by decide, ?_⟩
  obtain ⟨id, h1, h2, _, _, h5, h6⟩ :=
    generate_algorithm_id_oid_then_null sample_oids sample_arena (some stale_algorithm_id)
      SEC_OID_SHA256 sha256_oid (by decide) (by decide)
  exact ⟨id, h1, h2, h5, h6⟩

/-- C6, as stated, fails: called with a `NULL` output and a tag that has no
registered identifier, `generate_algorithm_id` fails at the `!idp` guard,
before the lookup, and stores no error code. -/
theorem generate_algorithm_id_null_output_no_error :
    SECOID_FindOIDByTag sample_oids 7 = none ∧
    (generate_algorithm_id sample_oids sample_arena none 7).rc = -1 ∧
    (generate_algorithm_id sample_oids sample_arena none 7).error = none ∧
    (generate_algorithm_id sample_oids sample_arena none 7).error ≠
      some SEC_ERROR_INVALID_ALGORITHM := by
  decide

/-- C6, amended: for a tag with no registered identifier
`generate_algorithm_id` fails, leaves the arena as it was and leaves the
output as it was; when the output pointer is not `NULL` the error code it
stores is `SEC_ERROR_INVALID_ALGORITHM`; and on every failing return, whatever
the tag, the output is as it was before the call. -/
theorem generate_algorithm_id_failure (registered : List SECOidData) (arena : PRArenaPool)
    (idp : Option SECAlgorithmID) (old : SECAlgorithmID) (tag : SECOidTag) :
    (SECOID_FindOIDByTag registered tag = none →
      (generate_algorithm_id registered arena idp tag).rc = -1 ∧
      (generate_algorithm_id registered arena idp tag).arena = arena ∧
      (generate_algorithm_id registered arena idp tag).idp = idp) ∧
    (SECOID_FindOIDByTag registered tag = none →
      (generate_algorithm_id registered arena (some old) tag).error =
        some SEC_ERROR_INVALID_ALGORITHM) ∧
    ((generate_algorithm_id registered arena idp tag).rc ≠ 0 →
      (generate_algorithm_id registered arena idp tag).idp = idp) := by
  refine ⟨?_, ?_, ?_⟩
  · intro hf
    cases idp with
    | none => simp [generate_algorithm_id]
    | some o => simp [generate_algorithm_id, hf]
  · intro hf
    simp [generate_algorithm_id, hf]
  · intro hne
    rcases generate_algorithm_id_cases registered arena idp tag with h | h
    · exact h.2
    · exact absurd h.1 hne

/-- Witness for C6 amended: an unregistered tag with an output holding
leftovers. -/
theorem generate_algorithm_id_failure_witness :
    SECOID_FindOIDByTag sample_oids 7 = none ∧
    (generate_algorithm_id sample_oids sample_arena (some stale_algorithm_id) 7).rc = -1 ∧
    (generate_algorithm_id sample_oids sample_arena (some stale_algorithm_id) 7).arena =
      sample_arena ∧
    (generate_algorithm_id sample_oids sample_arena (some stale_algorithm_id) 7).idp =
      some stale_algorithm_id ∧
    (generate_algorithm_id sample_oids sample_arena (some stale_algorithm_id) 7).error =
      some SEC_ERROR_INVALID_ALGORITHM :=
  ⟨by decide,
   ((generate_algorithm_id_failure sample_oids sample_arena (some stale_algorithm_id)
      stale_algorithm_id 7).1 (by decide)).1,
   ((generate_algorithm_id_failure sample_oids sample_arena (some stale_algorithm_id)
      stale_algorithm_id 7).1 (by decide)).2.1,
   ((generate_algorithm_id_failure sample_oids sample_arena (some stale_algorithm_id)
      stale_algorithm_id 7).1 (by decide)).2.2,
   (generate_algorithm_id_failure sample_oids sample_arena (some stale_algorithm_id)
      stale_algorithm_id 7).2.1 (by decide)⟩

/-! ## Context lifecycle -/

/-- C7, as stated, fails: when the library does not start, or the
identifiers do not register, a context holding leftovers is returned as it
was, not zeroed; and when the identifiers do not register or the arena cannot
be allocated, the library, not started before the call, is left started. -/
theorem cms_context_init_failure_keeps_state :
    (cms_context_init library_start_fails sample_process sample_context).rc = -1 ∧
    (cms_context_init library_start_fails sample_process sample_context).ctx =
      sample_context ∧
    (cms_context_init registration_fails sample_process sample_context).rc = -1 ∧
    (cms_context_init registration_fails sample_process sample_context).ctx =
      sample_context ∧
    sample_context ≠ cms_context.zero ∧
    sample_process.nss_initialized = false ∧
    (cms_context_init registration_fails sample_process
        sample_context).process.nss_initialized = true ∧
    (cms_context_init arena_fails sample_process sample_context).rc = -1 ∧
    (cms_context_init arena_fails sample_process sample_context).process.nss_initialized =
      true := by
  decide

/-- C7, amended: whenever `cms_context_init` fails, then: if the library did
not start, the context and the process are as they were before the call; if
the library started and the identifiers did not register, the context is as
it was before the call and the library is left started; otherwise the arena
could not be allocated, the context is all-zero and the library is left
started.  In each case a context that was all-zero before the call is
all-zero after it, and nothing but the library flag changes in the
process. -/
theorem cms_context_init_failure (env : InitOutcome) (p : Process) (ctx : cms_context)
    (hfail : (cms_context_init env p ctx).rc ≠ 0) :
    (env.nss_init_ok = false →
      (cms_context_init env p ctx).ctx = ctx ∧ (cms_context_init env p ctx).process = p) ∧
    (env.nss_init_ok = true → env.register_oids_ok = false →
      (cms_context_init env p ctx).ctx = ctx ∧
      (cms_context_init env p ctx).process = { p with nss_initialized := true }) ∧
    (env.nss_init_ok = true → env.register_oids_ok = true →
      env.new_arena = none ∧
      (cms_context_init env p ctx).ctx = cms_context.zero ∧
      (cms_context_init env p ctx).process = { p with nss_initialized := true }) ∧
    (ctx = cms_context.zero → (cms_context_init env p ctx).ctx = cms_context.zero) := by
  obtain ⟨a, b, c⟩ := env
  cases a <;> cases b <;> cases c <;>
    simp_all [cms_context_init, NSS_InitReadWrite, cms_context.zero]

/-- Witness for C7 amended: the arena cannot be allocated; the context,
which held leftovers, comes back all-zero and the library is started. -/
theorem cms_context_init_failure_witness :
    (cms_context_init arena_fails sample_process sample_context).rc ≠ 0 ∧
    (cms_context_init arena_fails sample_process sample_context).ctx = cms_context.zero :=
  ⟨by decide,
   ((cms_context_init_failure arena_fails sample_process sample_context (by decide)).2.2.1 rfl rfl).2.1⟩

/-- The memory `cms_context_fini` leaves is the memory it found with
`free_poison` applied for `pe_digest` and then for `ci_digest`, where they
are set; the certificate, the key and the arena play no part in it. -/
theorem cms_context_fini_memory (p : Process) (ctx : cms_context) :
    (cms_context_fini p ctx).1.memory =
      (fini_ci_digest (fini_pe_digest (p, ctx))).1.memory := by
  obtain ⟨ar, c, k, pe, ci⟩ := ctx
  cases c <;> cases k <;> cases pe <;> cases ci <;> cases ar <;> rfl

/-- A byte outside both digest buffers is not written by
`cms_context_fini`: it holds afterwards what it held before.  The key memory
is such a place. -/
theorem cms_context_fini_memory_outside (p : Process) (ctx : cms_context) (a : Nat)
    (hpe : ∀ d, ctx.pe_digest = some d → ¬ (d.data ≤ a ∧ a < d.data + d.len))
    (hci : ∀ d, ctx.ci_digest = some d → ¬ (d.data ≤ a ∧ a < d.data + d.len)) :
    (cms_context_fini p ctx).1.memory a = p.memory a := by
  rw [cms_context_fini_memory]
  obtain ⟨ar, c, k, pe, ci⟩ := ctx
  cases pe with
  | none =>
    cases ci with
    | none => rfl
    | some d2 =>
      have h2 := hci d2 rfl
      simp only [fini_ci_digest, fini_pe_digest, free_poison]
      rw [if_neg h2]
  | some d1 =>
    have h1 := hpe d1 rfl
    cases ci with
    | none =>
      simp only [fini_ci_digest, fini_pe_digest, free_poison]
      rw [if_neg h1]
    | some d2 =>
      have h2 := hci d2 rfl
      simp only [fini_ci_digest, fini_pe_digest, free_poison]
      rw [if_neg h2, if_neg h1]

/-- A byte inside a digest buffer is overwritten by `cms_context_fini`: what
it holds afterwards does not depend on what the memory held before. -/
theorem cms_context_fini_memory_digest (p q : Process) (ctx : cms_context)
    (d : SECItemMem) (a : Nat)
    (hd : ctx.pe_digest = some d ∨ ctx.ci_digest = some d)
    (hlo : d.data ≤ a) (hhi : a < d.data + d.len) :
    (cms_context_fini p ctx).1.memory a = (cms_context_fini q ctx).1.memory a := by
  rw [cms_context_fini_memory, cms_context_fini_memory]
  obtain ⟨ar, c, k, pe, ci⟩ := ctx
  have hin : d.data ≤ a ∧ a < d.data + d.len := ⟨hlo, hhi⟩
  cases pe with
  | none =>
    cases ci with
    | none => simp at hd
    | some d2 =>
      have e : d2 = d := by simpa using hd
      subst e
      simp only [fini_ci_digest, fini_pe_digest, free_poison]
      rw [if_pos hin, if_pos hin]
  | some d1 =>
    cases ci with
    | none =>
      have e : d1 = d := by simpa using hd
      subst e
      simp only [fini_ci_digest, fini_pe_digest, free_poison]
      rw [if_pos hin, if_pos hin]
    | some d2 =>
      simp only [fini_ci_digest, fini_pe_digest, free_poison]
      by_cases h2 : d2.data ≤ a ∧ a < d2.data + d2.len
      · rw [if_pos h2, if_pos h2]
      · rw [if_neg h2, if_neg h2]
        have e : d1 = d := by
          rcases hd with h | h
          · simpa using h
          · have : d2 = d := by simpa using h
            subst this
            exact absurd hin h2
        subst e
        rw [if_pos hin, if_pos hin]

/-- C8, at a context holding a key and two digests: after `cms_context_fini`
the key address has been given to `free` and the four bytes of the key are
still the original ones, while the bytes of both digest buffers have been
overwritten over their full length. -/
theorem cms_context_fini_key_not_wiped :
    (cms_context_fini sample_process sample_context).1.freed = [100] ∧
    (cms_context_fini sample_process sample_context).1.memory 100 = 0xde ∧
    (cms_context_fini sample_process sample_context).1.memory 101 = 0xad ∧
    (cms_context_fini sample_process sample_context).1.memory 102 = 0xbe ∧
    (cms_context_fini sample_process sample_context).1.memory 103 = 0xef ∧
    (List.map (cms_context_fini sample_process sample_context).1.memory
      [200, 201, 202, 203]) = [0xa5, 0x5a, 0xa5, 0x5a] ∧
    (List.map (cms_context_fini sample_process sample_context).1.memory [300, 301]) =
      [0xa5, 0x5a] ∧
    (List.map sample_process.memory [100, 101, 102, 103]) = [0xde, 0xad, 0xbe, 0xef] := by
  decide

/-- C9: after `cms_context_fini` the context is all-zero (arena, certificate,
key and both digests are `NULL`), and a second `cms_context_fini` on it
changes nothing: the context, the memory, the lists of freed addresses,
destroyed certificates and released pools, and the library flag are as the
first call left them. -/
theorem cms_context_fini_twice (p : Process) (ctx : cms_context) :
    (cms_context_fini p ctx).2 = cms_context.zero ∧
    (cms_context_fini p ctx).2.arena = none ∧
    (cms_context_fini p ctx).2.cert = none ∧
    (cms_context_fini p ctx).2.privkey = none ∧
    (cms_context_fini p ctx).2.pe_digest = none ∧
    (cms_context_fini p ctx).2.ci_digest = none ∧
    cms_context_fini (cms_context_fini p ctx).1 (cms_context_fini p ctx).2 =
      cms_context_fini p ctx ∧
    (cms_context_fini (cms_context_fini p ctx).1 (cms_context_fini p ctx).2).1.destroyed =
      (cms_context_fini p ctx).1.destroyed ∧
    (cms_context_fini (cms_context_fini p ctx).1 (cms_context_fini p ctx).2).1.freed =
      (cms_context_fini p ctx).1.freed ∧
    (cms_context_fini (cms_context_fini p ctx).1 (cms_context_fini p ctx).2).1.memory =
      (cms_context_fini p ctx).1.memory := by
  refine ⟨rfl, rfl, rfl, rfl, rfl, rfl, rfl, rfl, rfl, rfl⟩

end Pesign
